import Mathlib

/-!
Verification of the JWT token-lifecycle core of the django-chat repository.

The primary embedding follows `mysite/apps/user/utils.py` (per-token blacklist
variant): token issuance (`generate_jwt_tokens`), verification
(`verify_access_token`, `verify_refresh_token`), rotation
(`refresh_access_token`) and logout (`logout`), over an abstract signed-token
type and an explicit revocation-store state.  A token string is modelled by
its decode outcome: a correctly signed token carrying a payload, a tampered
token, or an unparseable string.  Times are integers (Unix seconds).  Store
operations are instrumented with a trace so that frame properties (which
operations touch the store) are provable.

The secondary embedding `Oauth2` follows `mysite/apps/oauth2/utils.py`
(per-user current-refresh-token variant) as far as the claims need it.
-/

/-- Claim set carried by a token, as built and read by `user/utils.py`.
Optional fields model `payload.get` returning `None` for absent claims. -/
structure Payload where
  ttype : String
  sub : String
  uid : Option String := none
  email : Option String := none
  username : Option String := none
  jti : Option String := none
  iat : Option Int := none
  nbf : Option Int := none
  exp : Option Int := none
deriving DecidableEq, Repr

/-- A token string, abstracted by how `jwt.decode` treats it: a validly
signed token with a given payload, a token whose signature does not verify,
or a string that cannot be parsed at all. -/
inductive TokenStr where
  | valid (p : Payload)
  | badSig (p : Payload)
  | malformed (s : String)
deriving DecidableEq, Repr

/-- Failure kinds of the lifecycle operations.  The first four arise from
`jwt.decode` (InvalidTokenError subclasses), `wrongType` and `revoked` from
the explicit raises in `verify_refresh_token`, and `storeUnavailable` from a
cache/store exception propagating uncaught. -/
inductive VerifyErr where
  | malformed
  | signatureInvalid
  | expired
  | immature
  | wrongType
  | revoked
  | storeUnavailable
deriving DecidableEq, Repr

/-- Setting JWT_ACCESS_TTL, default 60*15 seconds. -/
def JWT_ACCESS_TTL : Int := 60 * 15

/-- Setting JWT_REFRESH_TTL, default 60*60*24*7 seconds. -/
def JWT_REFRESH_TTL : Int := 60 * 60 * 24 * 7

/-- The JWT_REFRESH_ROTATE and JWT_REFRESH_BLACKLIST settings. -/
structure Config where
  rotate : Bool
  blacklist : Bool
deriving DecidableEq, Repr

/-- Both settings default to True in the source. -/
def defaultConfig : Config := ⟨true, true⟩

/-- Python truthiness of `payload.get(...)` on a string claim: absent or
empty strings are falsy. -/
def pyTruthyStr : Option String → Bool
  | none => false
  | some s => !(s == "")

/-- Python truthiness of `payload.get(...)` on an integer claim: absent or
zero are falsy. -/
def pyTruthyInt : Option Int → Bool
  | none => false
  | some n => !(n == 0)

/-- Embeds `_make_jwt`: stamps iat, nbf, exp = now + ttl and a fresh jti
(the caller supplies the uuid4 value). -/
def _make_jwt (payload : Payload) (ttl_seconds : Int) (now : Int) (jti : String) : TokenStr :=
  .valid { payload with
             iat := some now
             nbf := some now
             exp := some (now + ttl_seconds)
             jti := some jti }

/-- PyJWT's nbf validation: fails when nbf is present and lies in the future. -/
def nbfBad (p : Payload) (now : Int) : Bool :=
  match p.nbf with
  | some b => decide (now < b)
  | none => false

/-- PyJWT's exp validation: fails when exp is present and exp <= now. -/
def expBad (p : Payload) (now : Int) : Bool :=
  match p.exp with
  | some e => decide (e ≤ now)
  | none => false

/-- Embeds `_decode_jwt`: signature and parse checks, then (per PyJWT
defaults) nbf, then exp when `verify_exp` is set.  Issuer/audience are not
configured (both default to None), so no check is modelled for them. -/
def _decode_jwt (t : TokenStr) (verify_exp : Bool) (now : Int) : Except VerifyErr Payload :=
  match t with
  | .malformed _ => .error .malformed
  | .badSig _ => .error .signatureInvalid
  | .valid p =>
    if nbfBad p now then .error .immature
    else if verify_exp && expBad p now then .error .expired
    else .ok p

/-- State of the Django cache used as the revocation store: blacklist
entries as (key, absolute expiry time) pairs, plus a reachability flag. -/
structure CacheState where
  entries : List (String × Int)
  available : Bool
deriving DecidableEq, Repr

/-- One observed interaction with the revocation store. -/
inductive CacheOp where
  | get (key : String)
  | set (key : String) (ttl : Int)
deriving DecidableEq, Repr

/-- A key is present when some entry for it has not yet passed its expiry. -/
def cacheLookup (c : CacheState) (key : String) (now : Int) : Bool :=
  c.entries.any (fun e => e.1 == key && decide (now < e.2))

/-- cache.get: raises (store unavailable) when unreachable, else reports
presence of the key. -/
def cacheGet (c : CacheState) (key : String) (now : Int) : Except VerifyErr Bool :=
  if c.available then .ok (cacheLookup c key now) else .error .storeUnavailable

/-- cache.set with a TTL: raises when unreachable, else records the entry
until now + ttl. -/
def cacheSet (c : CacheState) (key : String) (ttl : Int) (now : Int) :
    Except VerifyErr CacheState :=
  if c.available then .ok { c with entries := (key, now + ttl) :: c.entries }
  else .error .storeUnavailable

/-- Embeds `_blacklist_key`. -/
def _blacklist_key (jti : String) : String := "jwt:refresh:blacklist:" ++ jti

/-- The TTL computed by `_blacklist_refresh_token`: max(exp_ts - now, 1). -/
def _blacklist_ttl (exp_ts now : Int) : Int := max (exp_ts - now) 1

/-- Embeds `_blacklist_refresh_token`. -/
def _blacklist_refresh_token (c : CacheState) (jti : String) (exp_ts now : Int) :
    Except VerifyErr CacheState :=
  cacheSet c (_blacklist_key jti) (_blacklist_ttl exp_ts now) now

/-- Embeds `_is_refresh_blacklisted`. -/
def _is_refresh_blacklisted (c : CacheState) (jti : String) (now : Int) :
    Except VerifyErr Bool :=
  cacheGet c (_blacklist_key jti) now

/-- The user object as far as `generate_jwt_tokens` reads it. -/
structure User where
  id : Nat
  email : Option String := none
  username : Option String := none
deriving DecidableEq, Repr

/-- The access/refresh pair returned by `generate_jwt_tokens`. -/
structure TokenPair where
  access : TokenStr
  refresh : TokenStr
deriving DecidableEq, Repr

/-- Embeds `generate_jwt_tokens` of `user/utils.py`: builds the access and
refresh payloads and signs both.  The two fresh uuid4 jti values are
supplied as arguments. -/
def generate_jwt_tokens (user : User) (now : Int) (jtiA jtiR : String) : TokenPair :=
  let user_id := toString user.id
  let access := _make_jwt
    { ttype := "access", sub := user_id, uid := some user_id
      email := user.email, username := user.username }
    JWT_ACCESS_TTL now jtiA
  let refresh := _make_jwt
    { ttype := "refresh", sub := user_id, uid := some user_id }
    JWT_REFRESH_TTL now jtiR
  ⟨access, refresh⟩

/-- Embeds `verify_refresh_token`: decode with expiry verification, check
type == refresh, then (when blacklisting is on and a truthy jti is present)
one store read; returns the payload otherwise.  The second component is the
trace of store operations performed. -/
def verify_refresh_token (cfg : Config) (c : CacheState) (t : TokenStr) (now : Int) :
    Except VerifyErr Payload × List CacheOp :=
  match _decode_jwt t true now with
  | .error e => (.error e, [])
  | .ok p =>
    if p.ttype != "refresh" then (.error .wrongType, [])
    else if cfg.blacklist && pyTruthyStr p.jti then
      let j := p.jti.getD ""
      match _is_refresh_blacklisted c j now with
      | .error e => (.error e, [.get (_blacklist_key j)])
      | .ok true => (.error .revoked, [.get (_blacklist_key j)])
      | .ok false => (.ok p, [.get (_blacklist_key j)])
    else (.ok p, [])

/-- Embeds `verify_access_token`: all decode failures become None, as does a
non-access token type.  No store interaction at all. -/
def verify_access_token (t : TokenStr) (now : Int) : Option Payload :=
  match _decode_jwt t true now with
  | .error _ => none
  | .ok p => if p.ttype != "access" then none else some p

/-- user_id = payload.get("uid") or payload.get("sub"): the Python `or`
falls through on a falsy (absent or empty) uid. -/
def userIdOf (p : Payload) : String :=
  match p.uid with
  | some u => if u == "" then p.sub else u
  | none => p.sub

/-- The dict returned by `refresh_access_token`: the "refresh" key is only
present when rotation is on. -/
structure RefreshResult where
  access : TokenStr
  refresh : Option TokenStr
deriving DecidableEq, Repr

/-- Embeds `refresh_access_token`: verify (including blacklist check), issue
a new access token; under rotation, blacklist the old refresh token (when it
has truthy jti and exp) and issue a new refresh token.  Returns the result
or propagated error, the final store state, and the store-operation trace. -/
def refresh_access_token (cfg : Config) (c : CacheState) (t : TokenStr) (now : Int)
    (jtiA jtiR : String) :
    Except VerifyErr RefreshResult × CacheState × List CacheOp :=
  match verify_refresh_token cfg c t now with
  | (.error e, tr) => (.error e, c, tr)
  | (.ok p, tr) =>
    let user_id := userIdOf p
    let new_access := _make_jwt
      { ttype := "access", sub := user_id, uid := some user_id } JWT_ACCESS_TTL now jtiA
    if cfg.rotate then
      if cfg.blacklist && pyTruthyStr p.jti && pyTruthyInt p.exp then
        let j := p.jti.getD ""
        let e := p.exp.getD 0
        match _blacklist_refresh_token c j e now with
        | .error err => (.error err, c, tr ++ [.set (_blacklist_key j) (_blacklist_ttl e now)])
        | .ok c' =>
          let new_refresh := _make_jwt
            { ttype := "refresh", sub := user_id, uid := some user_id } JWT_REFRESH_TTL now jtiR
          (.ok ⟨new_access, some new_refresh⟩, c',
            tr ++ [.set (_blacklist_key j) (_blacklist_ttl e now)])
      else
        let new_refresh := _make_jwt
          { ttype := "refresh", sub := user_id, uid := some user_id } JWT_REFRESH_TTL now jtiR
        (.ok ⟨new_access, some new_refresh⟩, c, tr)
    else (.ok ⟨new_access, none⟩, c, tr)

/-- Embeds `logout`: decode failures (expired or otherwise invalid) return
silently, as does a non-refresh token; otherwise the token is blacklisted
(when it has truthy jti and exp).  A store failure during the write
propagates.  Returns the outcome, final store state and trace. -/
def logout (cfg : Config) (c : CacheState) (t : TokenStr) (now : Int) :
    Except VerifyErr Unit × CacheState × List CacheOp :=
  match _decode_jwt t true now with
  | .error _ => (.ok (), c, [])
  | .ok p =>
    if p.ttype != "refresh" then (.ok (), c, [])
    else if cfg.blacklist && pyTruthyStr p.jti && pyTruthyInt p.exp then
      let j := p.jti.getD ""
      let e := p.exp.getD 0
      match _blacklist_refresh_token c j e now with
      | .error err => (.error err, c, [.set (_blacklist_key j) (_blacklist_ttl e now)])
      | .ok c' => (.ok (), c', [.set (_blacklist_key j) (_blacklist_ttl e now)])
    else (.ok (), c, [])

/-- Store-instrumented form of issuance: `generate_jwt_tokens` contains no
cache call at all, so running it against any store state performs no store
operation and leaves the state unchanged. -/
def issuePair (c : CacheState) (user : User) (now : Int) (jtiA jtiR : String) :
    TokenPair × CacheState × List CacheOp :=
  (generate_jwt_tokens user now jtiA jtiR, c, [])

namespace Oauth2

/-- Payload of the oauth2 variant: user_id, email, iat, exp, type. -/
structure OPayload where
  user_id : Nat
  email : Option String := none
  iat : Int
  exp : Int
  ttype : String
deriving DecidableEq, Repr

/-- Token strings of the oauth2 variant, abstracted as in the main model. -/
inductive OToken where
  | valid (p : OPayload)
  | badSig (p : OPayload)
  | malformed (s : String)
deriving DecidableEq, Repr

/-- Redis state of the oauth2 variant: per-user current refresh token under
key jwt:refresh:(user_id), with absolute expiry, plus reachability. -/
structure RedisState where
  entries : List (String × OToken × Int)
  available : Bool
deriving DecidableEq, Repr

/-- One observed Redis interaction of the oauth2 variant. -/
inductive RedisOp where
  | get (key : String)
  | setex (key : String) (ttl : Int)
  | del (key : String)
deriving DecidableEq, Repr

/-- Setting JWT_ACCESS_TOKEN_EXPIRE_MINUTES, default 15. -/
def JWT_ACCESS_TOKEN_EXPIRE_MINUTES : Int := 15

/-- Setting JWT_REFRESH_TOKEN_EXPIRE_DAYS, default 7. -/
def JWT_REFRESH_TOKEN_EXPIRE_DAYS : Int := 7

/-- Embeds `generate_jwt_tokens` of `oauth2/utils.py`: builds and signs the
pair, then stores the refresh token in Redis under jwt:refresh:(user_id)
with a 7-day TTL; a Redis failure during that write is caught and only
logged, so the tokens are returned either way. -/
def generate_jwt_tokens (user : User) (now : Int) (st : RedisState) :
    (OToken × OToken) × RedisState × List RedisOp :=
  let access := OToken.valid
    { user_id := user.id, email := user.email
      iat := now, exp := now + JWT_ACCESS_TOKEN_EXPIRE_MINUTES * 60, ttype := "access" }
  let refresh := OToken.valid
    { user_id := user.id, email := user.email
      iat := now, exp := now + JWT_REFRESH_TOKEN_EXPIRE_DAYS * 24 * 60 * 60, ttype := "refresh" }
  let redis_key := "jwt:refresh:" ++ toString user.id
  let redis_ttl := JWT_REFRESH_TOKEN_EXPIRE_DAYS * 24 * 60 * 60
  if st.available then
    ((access, refresh),
     { st with entries := (redis_key, refresh, now + redis_ttl) :: st.entries },
     [.setex redis_key redis_ttl])
  else
    ((access, refresh), st, [])

end Oauth2

/-- The full access-token payload produced by `generate_jwt_tokens` for a
user at issue time t0 with fresh jti jA (payload plus the standard claims
stamped by `_make_jwt`). -/
def accessPayload (u : User) (t0 : Int) (jA : String) : Payload :=
  { ttype := "access", sub := toString u.id, uid := some (toString u.id),
    email := u.email, username := u.username, jti := some jA,
    iat := some t0, nbf := some t0, exp := some (t0 + JWT_ACCESS_TTL) }

/-- The full refresh-token payload produced by `generate_jwt_tokens` for a
user at issue time t0 with fresh jti jR. -/
def refreshPayload (u : User) (t0 : Int) (jR : String) : Payload :=
  { ttype := "refresh", sub := toString u.id, uid := some (toString u.id),
    jti := some jR, iat := some t0, nbf := some t0, exp := some (t0 + JWT_REFRESH_TTL) }

/-! ## Helper lemmas -/

/-- Issued tokens carry exactly the stamped payloads. -/
theorem generate_jwt_tokens_eq (u : User) (t0 : Int) (jA jR : String) :
    generate_jwt_tokens u t0 jA jR =
      ⟨.valid (accessPayload u t0 jA), .valid (refreshPayload u t0 jR)⟩ := rfl

/-- Decoding a validly signed token succeeds when neither the nbf nor the
exp check trips. -/
theorem decode_valid_ok (p : Payload) (now : Int)
    (hnbf : nbfBad p now = false) (hexp : expBad p now = false) :
    _decode_jwt (.valid p) true now = .ok p := by
  simp [_decode_jwt, hnbf, hexp]

/-- The nbf check on an issued refresh payload passes from t0 on. -/
theorem nbfBad_refreshPayload (u : User) (t0 now : Int) (jR : String) (h : t0 ≤ now) :
    nbfBad (refreshPayload u t0 jR) now = false := by
  simp only [nbfBad, refreshPayload, decide_eq_false_iff_not, not_lt]
  exact h

/-- The exp check on an issued refresh payload passes before t0 + TTL. -/
theorem expBad_refreshPayload (u : User) (t0 now : Int) (jR : String)
    (h : now < t0 + JWT_REFRESH_TTL) :
    expBad (refreshPayload u t0 jR) now = false := by
  simp only [expBad, refreshPayload, decide_eq_false_iff_not, not_le]
  exact h

/-- A freshly written blacklist entry is found by any lookup before its expiry. -/
theorem cacheLookup_cons_self (key : String) (e : Int) (rest : List (String × Int))
    (av : Bool) (now : Int) (h : now < e) :
    cacheLookup ⟨(key, e) :: rest, av⟩ key now = true := by
  simp [cacheLookup, h]

/-- Successful verification on the not-blacklisted path, both with and
without a store read depending on the configuration and jti. -/
theorem verify_refresh_token_ok (cfg : Config) (c : CacheState) (p : Payload) (now : Int)
    (hnbf : nbfBad p now = false) (hexp : expBad p now = false)
    (hty : p.ttype = "refresh") (hav : c.available = true)
    (hlk : cacheLookup c (_blacklist_key (p.jti.getD "")) now = false) :
    verify_refresh_token cfg c (.valid p) now =
      (.ok p, if cfg.blacklist && pyTruthyStr p.jti
              then [.get (_blacklist_key (p.jti.getD ""))] else []) := by
  have hd := decode_valid_ok p now hnbf hexp
  by_cases hb : (cfg.blacklist && pyTruthyStr p.jti) = true
  · simp [verify_refresh_token, hd, hty, hb, _is_refresh_blacklisted, cacheGet, hav, hlk]
  · simp [verify_refresh_token, hd, hty, hb]

/-- Failing verification on the blacklisted path. -/
theorem verify_refresh_token_revoked (cfg : Config) (c : CacheState) (p : Payload) (now : Int)
    (hnbf : nbfBad p now = false) (hexp : expBad p now = false)
    (hty : p.ttype = "refresh") (hav : c.available = true)
    (hb : cfg.blacklist = true) (hjti : pyTruthyStr p.jti = true)
    (hlk : cacheLookup c (_blacklist_key (p.jti.getD "")) now = true) :
    verify_refresh_token cfg c (.valid p) now =
      (.error .revoked, [.get (_blacklist_key (p.jti.getD ""))]) := by
  have hd := decode_valid_ok p now hnbf hexp
  simp [verify_refresh_token, hd, hty, hb, hjti, _is_refresh_blacklisted, cacheGet, hav, hlk]

/-- Logout on a valid, unexpired refresh token with a truthy jti writes a
blacklist entry lasting until the token's own expiry e, via a store write
with TTL e - now. -/
theorem logout_blacklists (p : Payload) (c : CacheState) (now e : Int)
    (hty : p.ttype = "refresh") (hjti : pyTruthyStr p.jti = true) (hexp : p.exp = some e)
    (hnbf : nbfBad p now = false) (hav : c.available = true)
    (h1 : now < e) (h4 : e ≠ 0) :
    logout defaultConfig c (.valid p) now =
      (.ok (), ⟨(_blacklist_key (p.jti.getD ""), e) :: c.entries, true⟩,
       [.set (_blacklist_key (p.jti.getD "")) (e - now)]) := by
  obtain ⟨ents, av⟩ := c
  simp only at hav
  subst hav
  have httl : _blacklist_ttl e now = e - now := by unfold _blacklist_ttl; omega
  have harith : now + (e - now) = e := by omega
  have hd := decode_valid_ok p now hnbf
    (by simp only [expBad, hexp, decide_eq_false_iff_not, not_le]; exact h1)
  have hcond : (defaultConfig.blacklist && pyTruthyStr p.jti && pyTruthyInt (some e)) = true := by
    simp [defaultConfig, hjti, pyTruthyInt, h4]
  simp [logout, hd, hty, hexp, hcond, _blacklist_refresh_token, cacheSet, httl, harith]

/-- Refresh with rotation and blacklisting on, applied to a valid,
unexpired, not-yet-revoked refresh token: returns a new pair, blacklists
the old jti until the old expiry e (store write with TTL e - now), after
one store read. -/
theorem refresh_access_token_rotates (p : Payload) (c : CacheState) (now e : Int)
    (jA2 jR2 : String)
    (hty : p.ttype = "refresh") (hjti : pyTruthyStr p.jti = true) (hexp : p.exp = some e)
    (hnbf : nbfBad p now = false) (hav : c.available = true)
    (hlk : cacheLookup c (_blacklist_key (p.jti.getD "")) now = false)
    (h1 : now < e) (h4 : e ≠ 0) :
    refresh_access_token defaultConfig c (.valid p) now jA2 jR2 =
      (.ok ⟨_make_jwt { ttype := "access", sub := userIdOf p, uid := some (userIdOf p) } JWT_ACCESS_TTL now jA2, some (_make_jwt { ttype := "refresh", sub := userIdOf p, uid := some (userIdOf p) } JWT_REFRESH_TTL now jR2)⟩,
       ⟨(_blacklist_key (p.jti.getD ""), e) :: c.entries, true⟩,
       [.get (_blacklist_key (p.jti.getD "")), .set (_blacklist_key (p.jti.getD "")) (e - now)]) := by
  obtain ⟨ents, av⟩ := c
  simp only at hav
  subst hav
  have httl : _blacklist_ttl e now = e - now := by unfold _blacklist_ttl; omega
  have harith : now + (e - now) = e := by omega
  have hexpBad : expBad p now = false := by
    simp only [expBad, hexp, decide_eq_false_iff_not, not_le]; exact h1
  have hver : verify_refresh_token ⟨true, true⟩ ⟨ents, true⟩ (.valid p) now =
      (.ok p, [.get (_blacklist_key (p.jti.getD ""))]) := by
    have h := verify_refresh_token_ok ⟨true, true⟩ ⟨ents, true⟩ p now hnbf hexpBad hty rfl hlk
    simpa [hjti] using h
  have hexpT : pyTruthyInt p.exp = true := by simp [hexp, pyTruthyInt, h4]
  simp [refresh_access_token, defaultConfig, hver, hjti, hexp, hexpT,
    _blacklist_refresh_token, cacheSet, httl, harith]
  simp [pyTruthyInt, h4]

/-! ## Claims -/

/-- C1: refresh-token single use under rotation: a freshly issued refresh
token, once successfully used with Refresh (rotation and blacklist on), is
revoked: any later VerifyRefresh or Refresh with the original token fails
as revoked, even before the token's natural expiry. -/
theorem rotation_single_use (u : User) (c : CacheState) (t0 now now2 : Int)
    (jA jR jA2 jR2 jA3 jR3 : String)
    (hjR : jR ≠ "") (hav : c.available = true)
    (hlk : cacheLookup c (_blacklist_key jR) now = false)
    (h0 : 0 ≤ t0) (ht : t0 ≤ now) (h2 : now ≤ now2) (h3 : now2 < t0 + JWT_REFRESH_TTL) :
    (∃ res : RefreshResult, (refresh_access_token defaultConfig c
        (generate_jwt_tokens u t0 jA jR).refresh now jA2 jR2).1 = .ok res) ∧
    (verify_refresh_token defaultConfig
        (refresh_access_token defaultConfig c
          (generate_jwt_tokens u t0 jA jR).refresh now jA2 jR2).2.1
        (generate_jwt_tokens u t0 jA jR).refresh now2).1 = .error .revoked ∧
    (refresh_access_token defaultConfig
        (refresh_access_token defaultConfig c
          (generate_jwt_tokens u t0 jA jR).refresh now jA2 jR2).2.1
        (generate_jwt_tokens u t0 jA jR).refresh now2 jA3 jR3).1 = .error .revoked := by
  have h1 : now < t0 + JWT_REFRESH_TTL := by omega
  have hjti : pyTruthyStr (refreshPayload u t0 jR).jti = true := by
    simp [refreshPayload, pyTruthyStr, hjR]
  have hgd : (refreshPayload u t0 jR).jti.getD "" = jR := rfl
  have h4 : t0 + JWT_REFRESH_TTL ≠ 0 := by unfold JWT_REFRESH_TTL; omega
  have hrot := refresh_access_token_rotates (refreshPayload u t0 jR) c now
    (t0 + JWT_REFRESH_TTL) jA2 jR2 rfl hjti rfl (nbfBad_refreshPayload u t0 now jR ht) hav
    (by rw [hgd]; exact hlk) h1 h4
  rw [hgd] at hrot
  have hrev := verify_refresh_token_revoked defaultConfig
    ⟨(_blacklist_key jR, t0 + JWT_REFRESH_TTL) :: c.entries, true⟩
    (refreshPayload u t0 jR) now2 (nbfBad_refreshPayload u t0 now2 jR (by omega))
    (expBad_refreshPayload u t0 now2 jR h3) rfl rfl rfl hjti
    (by rw [hgd]; exact cacheLookup_cons_self _ _ _ _ _ h3)
  rw [hgd] at hrev
  simp only [generate_jwt_tokens_eq]
  refine ⟨⟨_, by rw [hrot]⟩, ?_, ?_⟩
  · rw [hrot]
    show (verify_refresh_token defaultConfig
      ⟨(_blacklist_key jR, t0 + JWT_REFRESH_TTL) :: c.entries, true⟩
      (.valid (refreshPayload u t0 jR)) now2).1 = .error .revoked
    rw [hrev]
  · rw [hrot]
    show (refresh_access_token defaultConfig
      ⟨(_blacklist_key jR, t0 + JWT_REFRESH_TTL) :: c.entries, true⟩
      (.valid (refreshPayload u t0 jR)) now2 jA3 jR3).1 = .error .revoked
    simp [refresh_access_token, hrev]

/-- C1 witness: subject 1, issued and rotated at time 0, replayed at time 1. -/
theorem rotation_single_use_witness :
    (∃ res : RefreshResult, (refresh_access_token defaultConfig ⟨[], true⟩
        (generate_jwt_tokens ⟨1, none, none⟩ 0 "a" "r").refresh 0 "a2" "r2").1 = .ok res) ∧
    (verify_refresh_token defaultConfig
        (refresh_access_token defaultConfig ⟨[], true⟩
          (generate_jwt_tokens ⟨1, none, none⟩ 0 "a" "r").refresh 0 "a2" "r2").2.1
        (generate_jwt_tokens ⟨1, none, none⟩ 0 "a" "r").refresh 1).1 = .error .revoked ∧
    (refresh_access_token defaultConfig
        (refresh_access_token defaultConfig ⟨[], true⟩
          (generate_jwt_tokens ⟨1, none, none⟩ 0 "a" "r").refresh 0 "a2" "r2").2.1
        (generate_jwt_tokens ⟨1, none, none⟩ 0 "a" "r").refresh 1 "a3" "r3").1 =
      .error .revoked :=
  rotation_single_use ⟨1, none, none⟩ ⟨[], true⟩ 0 0 1 "a" "r" "a2" "r2" "a3" "r3"
    (by decide) rfl rfl (by decide) (by decide) (by decide) (by decide)

/-- C2: issuance/verification round trip: every freshly issued access token
verifies with the issuing subject and access type, and the freshly issued
refresh token verifies against an empty revocation store. -/
theorem issue_verify_round_trip (u : User) (c : CacheState) (t0 now : Int) (jA jR : String)
    (hav : c.available = true) (hent : c.entries = [])
    (h0 : t0 ≤ now) (h1 : now < t0 + JWT_ACCESS_TTL) :
    (∃ p, verify_access_token (generate_jwt_tokens u t0 jA jR).access now = some p ∧
        p.sub = toString u.id ∧ p.ttype = "access") ∧
    (∃ p, (verify_refresh_token defaultConfig c (generate_jwt_tokens u t0 jA jR).refresh now).1 =
        .ok p ∧ p.sub = toString u.id ∧ p.ttype = "refresh") := by
  have h2 : now < t0 + JWT_REFRESH_TTL := by
    unfold JWT_ACCESS_TTL at h1; unfold JWT_REFRESH_TTL; omega
  constructor
  · refine ⟨accessPayload u t0 jA, ?_, rfl, rfl⟩
    have hd : _decode_jwt (.valid (accessPayload u t0 jA)) true now =
        .ok (accessPayload u t0 jA) := by
      apply decode_valid_ok
      · simp only [nbfBad, accessPayload, decide_eq_false_iff_not, not_lt]; exact h0
      · simp only [expBad, accessPayload, decide_eq_false_iff_not, not_le]; exact h1
    have hty : (accessPayload u t0 jA).ttype = "access" := rfl
    simp only [generate_jwt_tokens_eq]
    simp [verify_access_token, hd, hty]
  · refine ⟨refreshPayload u t0 jR, ?_, rfl, rfl⟩
    have hvr := verify_refresh_token_ok defaultConfig c (refreshPayload u t0 jR) now
      (nbfBad_refreshPayload u t0 now jR h0) (expBad_refreshPayload u t0 now jR h2)
      rfl hav (by simp [cacheLookup, hent])
    simp only [generate_jwt_tokens_eq]
    simp [hvr]

/-- C2 witness: subject 1 issued and verified at time 0. -/
theorem issue_verify_round_trip_witness :
    (∃ p, verify_access_token (generate_jwt_tokens ⟨1, none, none⟩ 0 "a" "r").access 0 = some p ∧
        p.sub = toString (1 : Nat) ∧ p.ttype = "access") ∧
    (∃ p, (verify_refresh_token defaultConfig ⟨[], true⟩
        (generate_jwt_tokens ⟨1, none, none⟩ 0 "a" "r").refresh 0).1 =
        .ok p ∧ p.sub = toString (1 : Nat) ∧ p.ttype = "refresh") :=
  issue_verify_round_trip ⟨1, none, none⟩ ⟨[], true⟩ 0 0 "a" "r" rfl rfl (by decide) (by decide)

/-- C3: logout finality: revoking a valid, unexpired refresh token succeeds
and makes any later verification of the same token (before its natural
expiry) fail as revoked. -/
theorem logout_finality (p : Payload) (c : CacheState) (now now2 e : Int)
    (hty : p.ttype = "refresh") (hjti : pyTruthyStr p.jti = true)
    (hexp : p.exp = some e)
    (hnbf : nbfBad p now = false) (hnbf2 : nbfBad p now2 = false)
    (hav : c.available = true)
    (h1 : now < e) (h3 : now2 < e) (h4 : e ≠ 0) :
    (logout defaultConfig c (.valid p) now).1 = .ok () ∧
    (verify_refresh_token defaultConfig
        (logout defaultConfig c (.valid p) now).2.1 (.valid p) now2).1 = .error .revoked := by
  rw [logout_blacklists p c now e hty hjti hexp hnbf hav h1 h4]
  refine ⟨rfl, ?_⟩
  have hvr := verify_refresh_token_revoked defaultConfig
    ⟨(_blacklist_key (p.jti.getD ""), e) :: c.entries, true⟩ p now2 hnbf2
    (by simp only [expBad, hexp, decide_eq_false_iff_not, not_le]; exact h3)
    hty rfl rfl hjti (cacheLookup_cons_self _ _ _ _ _ h3)
  show (verify_refresh_token defaultConfig
    ⟨(_blacklist_key (p.jti.getD ""), e) :: c.entries, true⟩ (.valid p) now2).1 = .error .revoked
  rw [hvr]

/-- C3 witness: logout at time 0 on a token expiring at 100, verified at 1. -/
theorem logout_finality_witness :
    (logout defaultConfig ⟨[], true⟩
      (.valid { ttype := "refresh", sub := "1", jti := some "j", exp := some 100 }) 0).1 =
      .ok () ∧
    (verify_refresh_token defaultConfig
      (logout defaultConfig ⟨[], true⟩
        (.valid { ttype := "refresh", sub := "1", jti := some "j", exp := some 100 }) 0).2.1
      (.valid { ttype := "refresh", sub := "1", jti := some "j", exp := some 100 }) 1).1 =
      .error .revoked :=
  logout_finality { ttype := "refresh", sub := "1", jti := some "j", exp := some 100 }
    ⟨[], true⟩ 0 1 100 rfl (by decide) rfl rfl rfl rfl (by decide) (by decide) (by decide)

/-- C4: Revoke swallows all input-side failures: whenever the submitted
string fails to decode (garbage, bad signature, expired) or decodes to a
non-refresh token, `logout` returns success, touches no store state and
performs no store operation. -/
theorem logout_swallows_input_failures (cfg : Config) (c : CacheState) (t : TokenStr) (now : Int)
    (h : match _decode_jwt t true now with
         | .error _ => True
         | .ok p => p.ttype ≠ "refresh") :
    logout cfg c t now = (.ok (), c, []) := by
  rcases hd : _decode_jwt t true now with e | p <;> rw [hd] at h
  · simp [logout, hd]
  · have hty : (p.ttype != "refresh") = true := by simpa using h
    simp [logout, hd, hty]

/-- C4 witness: logout on an unparseable string is a silent success. -/
theorem logout_swallows_input_failures_witness :
    logout defaultConfig ⟨[], true⟩ (.malformed "garbage") 0 = (.ok (), ⟨[], true⟩, []) :=
  logout_swallows_input_failures defaultConfig ⟨[], true⟩ (.malformed "garbage") 0 (by trivial)

/-- C5 counterexample: in the oauth2 variant, issuing a pair for user 1
against a reachable, empty store performs a store write (non-empty trace),
so issuance is not free of revocation-store interaction in every variant. -/
theorem issuance_writes_store_counterexample :
    (Oauth2.generate_jwt_tokens ⟨1, none, none⟩ 0 ⟨[], true⟩).2.2 ≠ [] := by decide

/-- C5 (amended): the user-app IssuePair performs no revocation-store read
or write and leaves the store unchanged, while the oauth2-app variant
writes the freshly issued refresh token to the store under the user's key
at issuance. -/
theorem issuance_store_frame :
    (∀ (c : CacheState) (u : User) (now : Int) (jA jR : String),
        (issuePair c u now jA jR).2.1 = c ∧ (issuePair c u now jA jR).2.2 = []) ∧
    (∀ (st : Oauth2.RedisState) (u : User) (now : Int), st.available = true →
        (Oauth2.generate_jwt_tokens u now st).2.2 =
          [.setex ("jwt:refresh:" ++ toString u.id)
            (Oauth2.JWT_REFRESH_TOKEN_EXPIRE_DAYS * 24 * 60 * 60)]) := by
  refine ⟨fun c u now jA jR => ⟨rfl, rfl⟩, fun st u now h => ?_⟩
  simp [Oauth2.generate_jwt_tokens, h]

/-- C5 witness: the oauth2 issuance trace for user 1 on a reachable store. -/
theorem issuance_store_frame_witness :
    (Oauth2.generate_jwt_tokens ⟨1, none, none⟩ 0 ⟨[], true⟩).2.2 =
      [.setex ("jwt:refresh:" ++ toString (1 : Nat))
        (Oauth2.JWT_REFRESH_TOKEN_EXPIRE_DAYS * 24 * 60 * 60)] :=
  issuance_store_frame.2 ⟨[], true⟩ ⟨1, none, none⟩ 0 rfl

/-- C6: VerifyRefresh is fail-fast: a decode failure (signature, parse or
expiry) produces that failure with an empty store trace, and any store
operation in the trace is a read of the blacklist key performed only after
decode succeeded and the token type was refresh. -/
theorem verify_refresh_fail_fast (cfg : Config) (c : CacheState) (t : TokenStr) (now : Int) :
    (∀ e, _decode_jwt t true now = .error e →
      verify_refresh_token cfg c t now = (.error e, [])) ∧
    (∀ op, op ∈ (verify_refresh_token cfg c t now).2 →
      ∃ p, _decode_jwt t true now = .ok p ∧ p.ttype = "refresh" ∧
        op = .get (_blacklist_key (p.jti.getD ""))) := by
  constructor
  · intro e he
    unfold verify_refresh_token
    rw [he]
  · intro op hop
    unfold verify_refresh_token at hop
    rcases hd : _decode_jwt t true now with e | p <;> simp only [hd] at hop
    · simp at hop
    · by_cases hty : p.ttype = "refresh"
      · refine ⟨p, rfl, hty, ?_⟩
        rw [if_neg (by simp [hty])] at hop
        by_cases hb : (cfg.blacklist && pyTruthyStr p.jti) = true
        · rw [if_pos hb] at hop
          rcases hg : _is_refresh_blacklisted c (p.jti.getD "") now with e' | b <;>
            simp only [hg] at hop
          · simpa using hop
          · rcases b <;> simpa using hop
        · rw [if_neg hb] at hop
          simp at hop
      · rw [if_pos (by simp [bne_iff_ne]; exact hty)] at hop
        simp at hop

/-- C6 witness: an expired token fails with an empty store trace. -/
theorem verify_refresh_fail_fast_witness :
    verify_refresh_token defaultConfig ⟨[], true⟩
      (.valid { ttype := "refresh", sub := "1", exp := some 5 }) 10 = (.error .expired, []) :=
  (verify_refresh_fail_fast defaultConfig ⟨[], true⟩
      (.valid { ttype := "refresh", sub := "1", exp := some 5 }) 10).1 .expired rfl

/-- C7 counterexample: with rotation off, Refresh on a freshly issued valid
refresh token succeeds but its result carries no refresh token at all
(refresh field is none), rather than returning the input token. -/
theorem rotation_off_returns_no_refresh :
    (refresh_access_token ⟨false, true⟩ ⟨[], true⟩
        (generate_jwt_tokens ⟨1, none, none⟩ 0 "a" "r").refresh 0 "a2" "r2").1 =
      .ok ⟨_make_jwt { ttype := "access", sub := "1", uid := some "1" } JWT_ACCESS_TTL 0 "a2",
        none⟩ := by
  rfl

/-- C7 (amended): with rotation off, Refresh succeeds returning only a new
access token (no refresh entry in its result), performs no store write
(store unchanged), and the original refresh token stays verifiable until
its natural expiry. -/
theorem rotation_off_behaviour (u : User) (c : CacheState) (t0 now now2 : Int)
    (jA jR jA2 jR2 : String)
    (hjR : jR ≠ "") (hav : c.available = true)
    (hlk : cacheLookup c (_blacklist_key jR) now = false)
    (hlk2 : cacheLookup c (_blacklist_key jR) now2 = false)
    (ht : t0 ≤ now) (ht2 : t0 ≤ now2)
    (h1 : now < t0 + JWT_REFRESH_TTL) (h3 : now2 < t0 + JWT_REFRESH_TTL) :
    (∃ res : RefreshResult, (refresh_access_token ⟨false, true⟩ c
        (generate_jwt_tokens u t0 jA jR).refresh now jA2 jR2).1 = .ok res ∧
        res.refresh = none) ∧
    (refresh_access_token ⟨false, true⟩ c
        (generate_jwt_tokens u t0 jA jR).refresh now jA2 jR2).2.1 = c ∧
    (verify_refresh_token ⟨false, true⟩ c
        (generate_jwt_tokens u t0 jA jR).refresh now2).1 = .ok (refreshPayload u t0 jR) := by
  have hjti : pyTruthyStr (refreshPayload u t0 jR).jti = true := by
    simp [refreshPayload, pyTruthyStr, hjR]
  have hgd : (refreshPayload u t0 jR).jti.getD "" = jR := rfl
  have hver := verify_refresh_token_ok ⟨false, true⟩ c (refreshPayload u t0 jR) now
    (nbfBad_refreshPayload u t0 now jR ht) (expBad_refreshPayload u t0 now jR h1)
    rfl hav (by rw [hgd]; exact hlk)
  have hver2 := verify_refresh_token_ok ⟨false, true⟩ c (refreshPayload u t0 jR) now2
    (nbfBad_refreshPayload u t0 now2 jR ht2) (expBad_refreshPayload u t0 now2 jR h3)
    rfl hav (by rw [hgd]; exact hlk2)
  have hverR : verify_refresh_token ⟨false, true⟩ c (.valid (refreshPayload u t0 jR)) now =
      (.ok (refreshPayload u t0 jR), [.get (_blacklist_key jR)]) := by
    rw [hver]
    simp [hjti, hgd]
  have hrf : refresh_access_token ⟨false, true⟩ c (.valid (refreshPayload u t0 jR)) now jA2 jR2 =
      (.ok ⟨_make_jwt { ttype := "access", sub := toString u.id, uid := some (toString u.id) }
          JWT_ACCESS_TTL now jA2, none⟩, c, [.get (_blacklist_key jR)]) := by
    simp only [refresh_access_token, hverR]
    simp [userIdOf, refreshPayload]
  simp only [generate_jwt_tokens_eq]
  refine ⟨⟨_, by rw [hrf], rfl⟩, by rw [hrf], by rw [hver2]⟩

/-- C7 witness for the amended claim: subject 1 at concrete times. -/
theorem rotation_off_behaviour_witness :
    (∃ res : RefreshResult, (refresh_access_token ⟨false, true⟩ ⟨[], true⟩
        (generate_jwt_tokens ⟨1, none, none⟩ 0 "a" "r").refresh 0 "a2" "r2").1 = .ok res ∧
        res.refresh = none) ∧
    (refresh_access_token ⟨false, true⟩ ⟨[], true⟩
        (generate_jwt_tokens ⟨1, none, none⟩ 0 "a" "r").refresh 0 "a2" "r2").2.1 =
      (⟨[], true⟩ : CacheState) ∧
    (verify_refresh_token ⟨false, true⟩ ⟨[], true⟩
        (generate_jwt_tokens ⟨1, none, none⟩ 0 "a" "r").refresh 1).1 =
      .ok (refreshPayload ⟨1, none, none⟩ 0 "r") :=
  rotation_off_behaviour ⟨1, none, none⟩ ⟨[], true⟩ 0 0 1 "a" "r" "a2" "r2"
    (by decide) rfl rfl rfl (by decide) (by decide) (by decide) (by decide)

/-- C8: fail-closed on store unavailability: an otherwise-valid refresh
token (decodes, correct type, truthy jti) fails verification with the
store-unavailable error when the revocation store is unreachable. -/
theorem verify_refresh_store_unavailable (p : Payload) (c : CacheState) (now : Int)
    (hnbf : nbfBad p now = false) (hexp : expBad p now = false)
    (hty : p.ttype = "refresh") (hjti : pyTruthyStr p.jti = true)
    (hav : c.available = false) :
    (verify_refresh_token defaultConfig c (.valid p) now).1 = .error .storeUnavailable := by
  have hd := decode_valid_ok p now hnbf hexp
  simp [verify_refresh_token, hd, hty, hjti, defaultConfig, _is_refresh_blacklisted,
    cacheGet, hav]

/-- C8 witness: a valid unexpired refresh token against an unreachable store. -/
theorem verify_refresh_store_unavailable_witness :
    (verify_refresh_token defaultConfig ⟨[], false⟩
      (.valid { ttype := "refresh", sub := "1", jti := some "j", exp := some 100 }) 0).1 =
      .error .storeUnavailable :=
  verify_refresh_store_unavailable
    { ttype := "refresh", sub := "1", jti := some "j", exp := some 100 }
    ⟨[], false⟩ 0 rfl (by decide) rfl (by decide) rfl

/-- C9: the revocation record written for a refresh token revoked at logout
or at rotation carries TTL exactly exp - now, the token's remaining
lifetime at the moment of revocation. -/
theorem revocation_record_ttl (p : Payload) (c : CacheState) (now e : Int) (jA2 jR2 : String)
    (hty : p.ttype = "refresh") (hjti : pyTruthyStr p.jti = true) (hexp : p.exp = some e)
    (hnbf : nbfBad p now = false) (hav : c.available = true)
    (hlk : cacheLookup c (_blacklist_key (p.jti.getD "")) now = false)
    (h1 : now < e) (h4 : e ≠ 0) :
    (logout defaultConfig c (.valid p) now).2.2 =
      [.set (_blacklist_key (p.jti.getD "")) (e - now)] ∧
    (refresh_access_token defaultConfig c (.valid p) now jA2 jR2).2.2 =
      [.get (_blacklist_key (p.jti.getD "")), .set (_blacklist_key (p.jti.getD "")) (e - now)] := by
  constructor
  · rw [logout_blacklists p c now e hty hjti hexp hnbf hav h1 h4]
  · rw [refresh_access_token_rotates p c now e jA2 jR2 hty hjti hexp hnbf hav hlk h1 h4]

/-- C9 witness: token expiring at 100 revoked at time 10 gets TTL 90. -/
theorem revocation_record_ttl_witness :
    (logout defaultConfig ⟨[], true⟩
      (.valid { ttype := "refresh", sub := "1", jti := some "j", exp := some 100 }) 10).2.2 =
      [.set (_blacklist_key "j") ((100 : Int) - 10)] ∧
    (refresh_access_token defaultConfig ⟨[], true⟩
      (.valid { ttype := "refresh", sub := "1", jti := some "j", exp := some 100 }) 10
      "a2" "r2").2.2 =
      [.get (_blacklist_key "j"), .set (_blacklist_key "j") ((100 : Int) - 10)] :=
  revocation_record_ttl { ttype := "refresh", sub := "1", jti := some "j", exp := some 100 }
    ⟨[], true⟩ 10 100 "a2" "r2" rfl (by decide) rfl rfl rfl rfl (by decide) (by decide)

/-- C10: a validly signed, unexpired refresh token carrying no jti claim
verifies without any store interaction (even against an unreachable store),
refreshing it under rotation writes no revocation record and leaves the
store unchanged, and the token still verifies afterwards. -/
theorem jtiless_token_bypasses_revocation (p : Payload) (c : CacheState) (now now2 : Int)
    (jA2 jR2 : String)
    (hty : p.ttype = "refresh") (hjti : p.jti = none)
    (hnbf : nbfBad p now = false) (hexp : expBad p now = false)
    (hnbf2 : nbfBad p now2 = false) (hexp2 : expBad p now2 = false) :
    verify_refresh_token defaultConfig c (.valid p) now = (.ok p, []) ∧
    refresh_access_token defaultConfig c (.valid p) now jA2 jR2 =
      (.ok ⟨_make_jwt { ttype := "access", sub := userIdOf p, uid := some (userIdOf p) }
          JWT_ACCESS_TTL now jA2,
        some (_make_jwt { ttype := "refresh", sub := userIdOf p, uid := some (userIdOf p) }
          JWT_REFRESH_TTL now jR2)⟩, c, []) ∧
    (verify_refresh_token defaultConfig c (.valid p) now2).1 = .ok p := by
  have hd := decode_valid_ok p now hnbf hexp
  have hd2 := decode_valid_ok p now2 hnbf2 hexp2
  have hver : verify_refresh_token defaultConfig c (.valid p) now = (.ok p, []) := by
    simp [verify_refresh_token, hd, hty, hjti, pyTruthyStr, defaultConfig]
  have hver2 : verify_refresh_token defaultConfig c (.valid p) now2 = (.ok p, []) := by
    simp [verify_refresh_token, hd2, hty, hjti, pyTruthyStr, defaultConfig]
  have hverL : verify_refresh_token ⟨true, true⟩ c (.valid p) now = (.ok p, []) := hver
  refine ⟨hver, ?_, by rw [hver2]⟩
  simp [refresh_access_token, defaultConfig, hverL, hjti, pyTruthyStr]

/-- C10 witness: a jti-less refresh token, store unreachable throughout. -/
theorem jtiless_token_bypasses_revocation_witness :
    verify_refresh_token defaultConfig ⟨[], false⟩
      (.valid { ttype := "refresh", sub := "1", exp := some 100 }) 0 =
      (.ok { ttype := "refresh", sub := "1", exp := some 100 }, []) ∧
    refresh_access_token defaultConfig ⟨[], false⟩
      (.valid { ttype := "refresh", sub := "1", exp := some 100 }) 0 "a2" "r2" =
      (.ok ⟨_make_jwt { ttype := "access", sub := userIdOf { ttype := "refresh", sub := "1", exp := some 100 }, uid := some (userIdOf { ttype := "refresh", sub := "1", exp := some 100 }) } JWT_ACCESS_TTL 0 "a2",
        some (_make_jwt { ttype := "refresh", sub := userIdOf { ttype := "refresh", sub := "1", exp := some 100 }, uid := some (userIdOf { ttype := "refresh", sub := "1", exp := some 100 }) } JWT_REFRESH_TTL 0 "r2")⟩, ⟨[], false⟩, []) ∧
    (verify_refresh_token defaultConfig ⟨[], false⟩
      (.valid { ttype := "refresh", sub := "1", exp := some 100 }) 1).1 =
      .ok { ttype := "refresh", sub := "1", exp := some 100 } :=
  jtiless_token_bypasses_revocation { ttype := "refresh", sub := "1", exp := some 100 }
    ⟨[], false⟩ 0 1 "a2" "r2" rfl rfl rfl (by decide) rfl (by decide)
